import Mathlib

/-!
Verification of the build-time asset generation cache
(`packages/astro/src/assets/build/generate.ts`).

The module is embedded shallowly: the filesystem is an association list from
path strings to file contents, asynchronous effects are sequentialised by
explicit state passing, `Date.now()` and the external capabilities (image
service transform, remote fetch, filesystem write failures) are parameters,
and JavaScript exceptions become `Except` results.

File contents are modelled at the granularity the module observes them:
raw bytes (`Buffer`s), or the result of `JSON.stringify` on the
`RemoteCacheEntry` shape.  `JSON.parse` of a byte blob that is not valid
JSON throws.  Valid JSON of the wrong shape splits into two observable
cases: if the parsed value's `expires` is not a number, the JavaScript
comparison `undefined > Date.now()` evaluates to `false` and the entry
falls through as if expired; if `expires` is a future number but `data` is
not a string, the guard is taken and `Buffer.from(undefined, 'base64')`
throws `ERR_INVALID_ARG_TYPE` — not `ENOENT` — which the catch rethrows as
the wrapped cache-read error.
-/

set_option autoImplicit false

deriving instance DecidableEq for Except

namespace AssetGen

/-- A byte is a `Nat`; byte sequences are lists.  `ValidBytes bs` says every
element is an actual byte value (`< 256`), which `Buffer` guarantees. -/
def ValidBytes (bs : List Nat) : Prop := ∀ b ∈ bs, b < 256

instance : DecidablePred ValidBytes := fun bs =>
  inferInstanceAs (Decidable (∀ b ∈ bs, b < 256))

/-- The standard base64 alphabet used by `Buffer.toString('base64')`. -/
def b64Alphabet : List Char :=
  ['A', 'B', 'C', 'D', 'E', 'F', 'G', 'H', 'I', 'J', 'K', 'L', 'M',
   'N', 'O', 'P', 'Q', 'R', 'S', 'T', 'U', 'V', 'W', 'X', 'Y', 'Z',
   'a', 'b', 'c', 'd', 'e', 'f', 'g', 'h', 'i', 'j', 'k', 'l', 'm',
   'n', 'o', 'p', 'q', 'r', 's', 't', 'u', 'v', 'w', 'x', 'y', 'z',
   '0', '1', '2', '3', '4', '5', '6', '7', '8', '9', '+', '/']

/-- Character for a sextet value. -/
def b64Char (n : Nat) : Char := b64Alphabet.getD n 'A'

/-- Sextet value of an alphabet character. -/
def b64Index (c : Char) : Nat := b64Alphabet.indexOf c

/-- `Buffer.from(bytes).toString('base64')`: pack bytes three at a time into
four sextets, padding the final group with `=`. -/
def b64EncodeChunks : List Nat → List Char
  | [] => []
  | [b0] => [b64Char (b0 / 4), b64Char (b0 % 4 * 16), '=', '=']
  | [b0, b1] =>
      [b64Char (b0 / 4), b64Char (b0 % 4 * 16 + b1 / 16), b64Char (b1 % 16 * 4), '=']
  | b0 :: b1 :: b2 :: rest =>
      b64Char (b0 / 4) :: b64Char (b0 % 4 * 16 + b1 / 16) ::
      b64Char (b1 % 16 * 4 + b2 / 64) :: b64Char (b2 % 64) :: b64EncodeChunks rest

/-- `Buffer.from(str, 'base64')`: unpack four sextets into three bytes,
honouring `=` padding. -/
def b64DecodeChunks : List Char → List Nat
  | c0 :: c1 :: c2 :: c3 :: rest =>
      let s0 := b64Index c0
      let s1 := b64Index c1
      if c2 = '=' then [s0 * 4 + s1 / 16]
      else
        let s2 := b64Index c2
        if c3 = '=' then [s0 * 4 + s1 / 16, s1 % 16 * 16 + s2 / 4]
        else
          (s0 * 4 + s1 / 16) :: (s1 % 16 * 16 + s2 / 4) ::
          (s2 % 4 * 64 + b64Index c3) :: b64DecodeChunks rest
  | _ => []

/-- Contents of a file, at the granularity this module observes:
raw bytes, or text produced by `JSON.stringify`.  `jsonEntry data expires`
is the serialised `RemoteCacheEntry` record (`data` a string, `expires` a
number).  The two wrong-shape cases of valid JSON are distinguished by what
the unchecked cast lets through: `jsonNoData expires` is valid JSON whose
`expires` is a number but whose `data` is not a string (missing or of the
wrong type, so `Buffer.from(data, 'base64')` would throw); `jsonOther` is
valid JSON whose `expires` is not a number (reading `.expires` on the
parsed value yields `undefined` or a non-numeric value, which compares
`false` against `Date.now()`). -/
inductive FileData where
  | raw (bs : List Nat)
  | jsonEntry (data : String) (expires : Int)
  | jsonNoData (expires : Int)
  | jsonOther
  deriving DecidableEq, Repr

/-- The filesystem: an association list from path to contents, most recent
write first. -/
def ReadStore : List (String × FileData) → String → Option FileData
  | [], _ => none
  | (q, d) :: rest, p => if q = p then some d else ReadStore rest p

/-- The mutable world threaded through the embedding: the filesystem plus
instrumentation counters (warnings logged, source-loader invocations,
image-service transform invocations). -/
structure World where
  store : List (String × FileData)
  warnings : Nat
  loadCalls : Nat
  transformCalls : Nat
  deriving DecidableEq, Repr

/-- External capabilities and ambient inputs, fixed for a run:
the configured image service's `transform` (`none` models a throw), which
paths `fs` writes fail on (`true` models a throw), the remote fetch
capability `loadRemoteImage` (`none` models a throw), and `Date.now()`. -/
structure Caps where
  transform : List Nat → Option (List Nat)
  writeFails : String → Bool
  fetchRemote : String → Option (List Nat × Int)
  now : Int

/-- `path.posix.basename`: the component after the last slash. -/
def Basename (p : String) : String :=
  String.mk ((p.data.reverse.takeWhile (fun c => c ≠ '/')).reverse)

/-- `GenerationData`: `cached` is `GenerationDataCached` (`cached: true`, no
payload); `uncached before after` is `GenerationDataUncached`
(`cached: false` with `weight.before` and `weight.after`). -/
inductive GenerationData where
  | cached
  | uncached (before after : Nat)
  deriving DecidableEq, Repr

/-- The distinct ways a job throws: the wrapped cache-read error raised from
the lookup `catch` when `e.code !== 'ENOENT'`, a throw from
`imageService.transform`, and a throw from the final `writeFile` in the
`finally` block. -/
inductive JobError where
  | cacheReadError
  | transformError
  | finalWriteError
  deriving DecidableEq, Repr

/-- The record returned by `prepareAssetsGeneration` (logger elided: warnings
are counted in `World`). -/
structure GenEnv where
  useCache : Bool
  assetsCacheDir : String
  serverRoot : String
  clientRoot : String
  assetsFolder : String
  deriving DecidableEq, Repr

/-- The slice of the Astro build config that `prepareAssetsGeneration`
reads: `config.cacheDir`, `isServerLikeOutput(config)`,
`config.build.server`, `config.build.client`, `config.outDir`,
`config.build.assets`. -/
structure AstroConfig where
  cacheDir : String
  serverLikeOutput : Bool
  buildServer : String
  buildClient : String
  outDir : String
  buildAssets : String
  deriving DecidableEq, Repr

/-- `prepareAssetsGeneration(pipeline)`.  `mkdirFails` models whether
`fs.promises.mkdir(assetsCacheDir, { recursive: true })` throws;
`getOutDirWithinCwd` (an external helper from `core/build/common`) is passed
in as a function.  The function itself never throws: a mkdir failure is
caught, logged as a warning and downgraded to `useCache = false`. -/
def prepareAssetsGeneration (config : AstroConfig) (mkdirFails : Bool)
    (getOutDirWithinCwd : String → String) (w : World) : GenEnv × World :=
  let assetsCacheDir := config.cacheDir ++ "assets/"
  let useCache := !mkdirFails
  let w := if mkdirFails then { w with warnings := w.warnings + 1 } else w
  let roots :=
    if config.serverLikeOutput then (config.buildServer, config.buildClient)
    else (getOutDirWithinCwd config.outDir, config.outDir)
  ({ useCache := useCache
     assetsCacheDir := assetsCacheDir
     serverRoot := roots.1
     clientRoot := roots.2
     assetsFolder := config.buildAssets }, w)

/-- `new URL('.' + filepath, env.clientRoot)`: where the final artifact is
written (URL resolution modelled as string append). -/
def FinalPath (env : GenEnv) (filepath : String) : String :=
  env.clientRoot ++ filepath

/-- `const cacheFile = basename(filepath) + (isLocalImage ? '' : '.json')`
resolved against `env.assetsCacheDir`: the cache key derived for an output
identity.  Remote images get a JSON file with the image data and the
expiration date instead of the image itself. -/
def CachedPath (env : GenEnv) (filepath : String) (isLocalImage : Bool) : String :=
  env.assetsCacheDir ++ (Basename filepath ++ (if isLocalImage then "" else ".json"))

/-- The `try { ... } catch (e) { if (e.code !== 'ENOENT') throw ... }` cache
lookup at the top of `generateImageInternal`.  `.ok (some w')` is a hit
(the cached bytes were copied/decoded to the final location; early return);
`.ok none` is `ENOENT` or an expired remote entry (fall through to
regeneration); `.error` is the rethrown cache-read error. -/
def cacheLookup (env : GenEnv) (caps : Caps) (filepath : String)
    (isLocalImage : Bool) (w : World) : Except JobError (Option World) :=
  let finalFileURL := FinalPath env filepath
  let cachedFileURL := CachedPath env filepath isLocalImage
  if isLocalImage then
    match ReadStore w.store cachedFileURL with
    | none => .ok none
    | some d =>
        -- fs.promises.copyFile(cachedFileURL, finalFileURL)
        if caps.writeFails finalFileURL then .error .cacheReadError
        else .ok (some { w with store := (finalFileURL, d) :: w.store })
  else
    match ReadStore w.store cachedFileURL with
    | none => .ok none
    | some (.raw _) => .error .cacheReadError  -- JSON.parse throws
    | some .jsonOther => .ok none  -- undefined > Date.now() is false
    | some (.jsonNoData expires) =>
        if expires > caps.now then
          -- Buffer.from(JSONData.data, 'base64') with a non-string data
          -- throws ERR_INVALID_ARG_TYPE, not ENOENT: rethrown by the catch
          .error .cacheReadError
        else .ok none
    | some (.jsonEntry data expires) =>
        if expires > caps.now then
          -- writeFile(finalFileURL, Buffer.from(JSONData.data, 'base64'))
          if caps.writeFails finalFileURL then .error .cacheReadError
          else
            .ok (some { w with
              store := (finalFileURL, .raw (b64DecodeChunks data.data)) :: w.store })
        else .ok none

/-- The regeneration tail of `generateImageInternal` (after the lookup fell
through): `mkdir` of the final folder (directories are not tracked),
`imageService.transform`, then the `try`/`catch`/`finally` that best-effort
writes the cache entry and unconditionally writes the final file. -/
def regenerate (env : GenEnv) (caps : Caps) (originalImage : List Nat × Int)
    (filepath : String) (isLocalImage : Bool) (w : World) :
    Except JobError GenerationData × World :=
  let finalFileURL := FinalPath env filepath
  let cachedFileURL := CachedPath env filepath isLocalImage
  let w1 := { w with transformCalls := w.transformCalls + 1 }
  match caps.transform originalImage.1 with
  | none => (.error .transformError, w1)
  | some out =>
    -- try: write the cache entry when env.useCache
    let w2 :=
      if env.useCache then
        if caps.writeFails cachedFileURL then
          -- catch: logger.warn(...)
          { w1 with warnings := w1.warnings + 1 }
        else if isLocalImage then
          { w1 with store := (cachedFileURL, .raw out) :: w1.store }
        else
          { w1 with store :=
            (cachedFileURL,
             .jsonEntry (String.mk (b64EncodeChunks out)) originalImage.2) :: w1.store }
      else w1
    -- finally: write the final file
    if caps.writeFails finalFileURL then (.error .finalWriteError, w2)
    else
      (.ok (.uncached (originalImage.1.length / 1024) (out.length / 1024)),
       { w2 with store := (finalFileURL, .raw out) :: w2.store })

/-- `generateImageInternal(originalImage, filepath, options)`.

`originalImage` is the `{ data, expires }` pair produced by `loadImage`;
`isLocalImage` is `isESMImportedImage(options.src)`; the rest of the opaque
options bag and the image config are only forwarded to the external
`imageService.transform` capability, which `caps.transform` closes over.
Returns the JavaScript outcome (normal return or throw) together with the
final world. -/
def generateImageInternal (env : GenEnv) (caps : Caps)
    (originalImage : List Nat × Int) (filepath : String) (isLocalImage : Bool)
    (w : World) : Except JobError GenerationData × World :=
  match cacheLookup env caps filepath isLocalImage w with
  | .error e => (.error e, w)
  | .ok (some w') => (.ok .cached, w')
  | .ok none => regenerate env caps originalImage filepath isLocalImage w

/-- Modelled from the spec: `isRemotePath` lives in `core/path` (outside this
module); a Source's "identity = its path or URL; kind ∈ {local, remote}" and
remote identities are URLs. -/
def IsRemotePath (p : String) : Bool :=
  p.startsWith "http://" || p.startsWith "https://" || p.startsWith "//"

/-- Modelled from the spec: `prependForwardSlash` lives in `core/path`
(outside this module); it makes a path absolute. -/
def PrependForwardSlash (p : String) : String :=
  if p.startsWith "/" then p else "/" ++ p

/-- `loadImage(path, env)`: loads the source once, returning
`{ data, expires }`.  Remote paths delegate to the external `loadRemoteImage`
capability; local paths read
`new URL('.' + prependForwardSlash(join(env.assetsFolder, basename(path))), env.serverRoot)`
(`join` modelled as slash-append).  A throw (fetch failure, missing or
non-binary local file) is `none`.  `loadCalls` counts invocations. -/
def loadImage (env : GenEnv) (caps : Caps) (path : String) (w : World) :
    Option (List Nat × Int) × World :=
  let w := { w with loadCalls := w.loadCalls + 1 }
  if IsRemotePath path then
    match caps.fetchRemote path with
    | none => (none, w)
    | some r => (some r, w)
  else
    match ReadStore w.store
        (env.serverRoot ++ PrependForwardSlash (env.assetsFolder ++ "/" ++ Basename path)) with
    | some (.raw bs) => (some (bs, 0), w)
    | _ => (none, w)

/-- One entry of the `transforms` map passed to `generateImagesForPath`:
the final path and, from its options bag, whether `options.src` is an
ESM-imported (local) image. -/
structure TransformEntry where
  finalPath : String
  isLocalImage : Bool
  deriving DecidableEq, Repr

/-- The queue of jobs `generateImagesForPath` adds, sequentialised in map
order: each job runs `generateImageInternal` on the shared loaded image; a
job's throw is recorded and does not stop its siblings. -/
def runJobs (env : GenEnv) (caps : Caps) (originalImage : List Nat × Int) :
    List TransformEntry → World → List (Except JobError GenerationData) × World
  | [], w => ([], w)
  | t :: rest, w =>
    let r := generateImageInternal env caps originalImage t.finalPath t.isLocalImage w
    let rs := runJobs env caps originalImage rest r.2
    (r.1 :: rs.1, rs.2)

/-- `generateImagesForPath(originalFilePath, transforms, env, queue)`:
loads the original image once, then queues one `generateImage` job per
transform, all sharing `originalImageData`.  A load failure (`none`) aborts
before any job is queued. -/
def generateImagesForPath (env : GenEnv) (caps : Caps) (originalFilePath : String)
    (transforms : List TransformEntry) (w : World) :
    Option (List (Except JobError GenerationData)) × World :=
  match loadImage env caps originalFilePath w with
  | (none, w') => (none, w')
  | (some originalImageData, w') =>
    let rs := runJobs env caps originalImageData transforms w'
    (some rs.1, rs.2)

/-! Concrete inputs used to exercise the embedding on closed goals. -/

/-- A sample prepared environment (caching enabled). -/
def envEx : GenEnv :=
  { useCache := true, assetsCacheDir := "cache/", serverRoot := "server",
    clientRoot := "out", assetsFolder := "_astro" }

/-- `envEx` with caching disabled, as produced after a mkdir failure. -/
def envExNoCache : GenEnv := { envEx with useCache := false }

/-- Sample capabilities: the image service appends a byte, writes succeed,
the clock reads 100. -/
def capsEx : Caps :=
  { transform := fun bs => some (bs ++ [9]), writeFails := fun _ => false,
    fetchRemote := fun _ => none, now := 100 }

/-- `capsEx` but the image service throws. -/
def capsExNoTransform : Caps := { capsEx with transform := fun _ => none }

/-- `capsEx` but writes to the derived cache key `cache/img.png` throw. -/
def capsExCacheWriteFails : Caps :=
  { capsEx with writeFails := fun p => p == "cache/img.png" }

/-- A sample build config. -/
def configEx : AstroConfig :=
  { cacheDir := "node_modules/.astro/", serverLikeOutput := false,
    buildServer := "dist/server", buildClient := "dist/client",
    outDir := "dist", buildAssets := "_astro" }

/-- The empty starting world. -/
def emptyWorld : World :=
  { store := [], warnings := 0, loadCalls := 0, transformCalls := 0 }

/-! General lemmas about the byte encoding and the store. -/

theorem b64Index_b64Char : ∀ n : Nat, n < 64 → b64Index (b64Char n) = n := by
  decide

theorem b64Char_ne_pad : ∀ n : Nat, n < 64 → b64Char n ≠ '=' := by
  decide

theorem b64_roundtrip (bs : List Nat) (h : ValidBytes bs) :
    b64DecodeChunks (b64EncodeChunks bs) = bs := by
  induction bs using b64EncodeChunks.induct with
  | case1 =>
      simp [b64EncodeChunks, b64DecodeChunks]
  | case2 b0 =>
      have hb0 : b0 < 256 := h b0 (by simp)
      have e1 : b64Index (b64Char (b0 / 4)) = b0 / 4 := b64Index_b64Char _ (by omega)
      have e2 : b64Index (b64Char (b0 % 4 * 16)) = b0 % 4 * 16 :=
        b64Index_b64Char _ (by omega)
      simp [b64EncodeChunks, b64DecodeChunks, e1, e2]
      omega
  | case3 b0 b1 =>
      have hb0 : b0 < 256 := h b0 (by simp)
      have hb1 : b1 < 256 := h b1 (by simp)
      have e1 : b64Index (b64Char (b0 / 4)) = b0 / 4 := b64Index_b64Char _ (by omega)
      have e2 : b64Index (b64Char (b0 % 4 * 16 + b1 / 16)) = b0 % 4 * 16 + b1 / 16 :=
        b64Index_b64Char _ (by omega)
      have e3 : b64Index (b64Char (b1 % 16 * 4)) = b1 % 16 * 4 :=
        b64Index_b64Char _ (by omega)
      have ne3 : b64Char (b1 % 16 * 4) ≠ '=' := b64Char_ne_pad _ (by omega)
      simp [b64EncodeChunks, b64DecodeChunks, e1, e2, e3, ne3]
      omega
  | case4 b0 b1 b2 rest ih =>
      have hb0 : b0 < 256 := h b0 (by simp)
      have hb1 : b1 < 256 := h b1 (by simp)
      have hb2 : b2 < 256 := h b2 (by simp)
      have hrest : ValidBytes rest := fun b hb => h b (by simp [hb])
      have e1 : b64Index (b64Char (b0 / 4)) = b0 / 4 := b64Index_b64Char _ (by omega)
      have e2 : b64Index (b64Char (b0 % 4 * 16 + b1 / 16)) = b0 % 4 * 16 + b1 / 16 :=
        b64Index_b64Char _ (by omega)
      have e3 : b64Index (b64Char (b1 % 16 * 4 + b2 / 64)) = b1 % 16 * 4 + b2 / 64 :=
        b64Index_b64Char _ (by omega)
      have e4 : b64Index (b64Char (b2 % 64)) = b2 % 64 := b64Index_b64Char _ (by omega)
      have ne3 : b64Char (b1 % 16 * 4 + b2 / 64) ≠ '=' := b64Char_ne_pad _ (by omega)
      have ne4 : b64Char (b2 % 64) ≠ '=' := b64Char_ne_pad _ (by omega)
      simp [b64EncodeChunks, b64DecodeChunks, e1, e2, e3, e4, ne3, ne4, ih hrest]
      omega

theorem ReadStore_cons (q : String) (d : FileData) (rest : List (String × FileData))
    (p : String) :
    ReadStore ((q, d) :: rest) p = if q = p then some d else ReadStore rest p := rfl

theorem ReadStore_cons_self (q : String) (d : FileData)
    (rest : List (String × FileData)) : ReadStore ((q, d) :: rest) q = some d := by
  simp [ReadStore]

theorem ReadStore_cons_ne (q : String) (d : FileData)
    (rest : List (String × FileData)) (p : String) (h : q ≠ p) :
    ReadStore ((q, d) :: rest) p = ReadStore rest p := by
  simp [ReadStore, h]

/-! Scenario lemmas for the cache lookup phase. -/

theorem cacheLookup_absent (env : GenEnv) (caps : Caps) (filepath : String)
    (isLocal : Bool) (w : World)
    (h : ReadStore w.store (CachedPath env filepath isLocal) = none) :
    cacheLookup env caps filepath isLocal w = .ok none := by
  cases isLocal <;> simp [cacheLookup, h]

theorem cacheLookup_local_present (env : GenEnv) (caps : Caps) (filepath : String)
    (w : World) (d : FileData)
    (hd : ReadStore w.store (CachedPath env filepath true) = some d)
    (hw : caps.writeFails (FinalPath env filepath) = false) :
    cacheLookup env caps filepath true w =
      .ok (some { w with store := (FinalPath env filepath, d) :: w.store }) := by
  simp [cacheLookup, hd, hw]

theorem cacheLookup_remote_fresh (env : GenEnv) (caps : Caps) (filepath : String)
    (w : World) (data : String) (expires : Int)
    (hd : ReadStore w.store (CachedPath env filepath false) =
      some (.jsonEntry data expires))
    (hfresh : expires > caps.now)
    (hw : caps.writeFails (FinalPath env filepath) = false) :
    cacheLookup env caps filepath false w =
      .ok (some { w with
        store := (FinalPath env filepath, .raw (b64DecodeChunks data.data)) :: w.store }) := by
  simp [cacheLookup, hd, hfresh, hw]

theorem cacheLookup_remote_expired (env : GenEnv) (caps : Caps) (filepath : String)
    (w : World) (data : String) (expires : Int)
    (hd : ReadStore w.store (CachedPath env filepath false) =
      some (.jsonEntry data expires))
    (hexp : ¬ expires > caps.now) :
    cacheLookup env caps filepath false w = .ok none := by
  simp [cacheLookup, hd, hexp]

theorem regenerate_transform_throws (env : GenEnv) (caps : Caps)
    (orig : List Nat × Int) (filepath : String) (isLocal : Bool) (w : World)
    (htr : caps.transform orig.1 = none) :
    regenerate env caps orig filepath isLocal w =
      (.error .transformError, { w with transformCalls := w.transformCalls + 1 }) := by
  simp [regenerate, htr]

theorem regenerate_remote_full_write (env : GenEnv) (caps : Caps)
    (orig : List Nat × Int) (filepath : String) (w : World) (out : List Nat)
    (htr : caps.transform orig.1 = some out)
    (huc : env.useCache = true)
    (hcw : caps.writeFails (CachedPath env filepath false) = false)
    (hfw : caps.writeFails (FinalPath env filepath) = false) :
    regenerate env caps orig filepath false w =
      (.ok (.uncached (orig.1.length / 1024) (out.length / 1024)),
       { w with transformCalls := w.transformCalls + 1,
                store := (FinalPath env filepath, .raw out) ::
                  (CachedPath env filepath false,
                   .jsonEntry (String.mk (b64EncodeChunks out)) orig.2) :: w.store }) := by
  simp [regenerate, htr, huc, hcw, hfw]

theorem regenerate_local_full_write (env : GenEnv) (caps : Caps)
    (orig : List Nat × Int) (filepath : String) (w : World) (out : List Nat)
    (htr : caps.transform orig.1 = some out)
    (huc : env.useCache = true)
    (hcw : caps.writeFails (CachedPath env filepath true) = false)
    (hfw : caps.writeFails (FinalPath env filepath) = false) :
    regenerate env caps orig filepath true w =
      (.ok (.uncached (orig.1.length / 1024) (out.length / 1024)),
       { w with transformCalls := w.transformCalls + 1,
                store := (FinalPath env filepath, .raw out) ::
                  (CachedPath env filepath true, .raw out) :: w.store }) := by
  simp [regenerate, htr, huc, hcw, hfw]

theorem regenerate_cache_write_throws (env : GenEnv) (caps : Caps)
    (orig : List Nat × Int) (filepath : String) (isLocal : Bool) (w : World)
    (out : List Nat)
    (htr : caps.transform orig.1 = some out)
    (huc : env.useCache = true)
    (hcw : caps.writeFails (CachedPath env filepath isLocal) = true)
    (hfw : caps.writeFails (FinalPath env filepath) = false) :
    regenerate env caps orig filepath isLocal w =
      (.ok (.uncached (orig.1.length / 1024) (out.length / 1024)),
       { w with transformCalls := w.transformCalls + 1,
                warnings := w.warnings + 1,
                store := (FinalPath env filepath, .raw out) :: w.store }) := by
  simp [regenerate, htr, huc, hcw, hfw]

theorem regenerate_no_cache (env : GenEnv) (caps : Caps)
    (orig : List Nat × Int) (filepath : String) (isLocal : Bool) (w : World)
    (out : List Nat)
    (htr : caps.transform orig.1 = some out)
    (huc : env.useCache = false)
    (hfw : caps.writeFails (FinalPath env filepath) = false) :
    regenerate env caps orig filepath isLocal w =
      (.ok (.uncached (orig.1.length / 1024) (out.length / 1024)),
       { w with transformCalls := w.transformCalls + 1,
                store := (FinalPath env filepath, .raw out) :: w.store }) := by
  simp [regenerate, htr, huc, hfw]

/-- On every exit path of the cache-write block (caching disabled, cache
write succeeded, cache write threw and was swallowed), the `finally` writes
the final artifact whenever that write itself does not throw. -/
theorem regenerate_always_writes_final (env : GenEnv) (caps : Caps)
    (orig : List Nat × Int) (filepath : String) (isLocal : Bool) (w : World)
    (out : List Nat)
    (htr : caps.transform orig.1 = some out)
    (hfw : caps.writeFails (FinalPath env filepath) = false) :
    (regenerate env caps orig filepath isLocal w).1 =
      .ok (.uncached (orig.1.length / 1024) (out.length / 1024)) ∧
    ReadStore (regenerate env caps orig filepath isLocal w).2.store
      (FinalPath env filepath) = some (.raw out) := by
  cases huc : env.useCache with
  | false => simp [regenerate_no_cache env caps orig filepath isLocal w out htr huc hfw,
      ReadStore_cons_self]
  | true =>
    cases hcw : caps.writeFails (CachedPath env filepath isLocal) with
    | true => simp [regenerate_cache_write_throws env caps orig filepath isLocal w out
        htr huc hcw hfw, ReadStore_cons_self]
    | false =>
      cases isLocal with
      | false => simp [regenerate_remote_full_write env caps orig filepath w out
          htr huc hcw hfw, ReadStore_cons_self]
      | true => simp [regenerate_local_full_write env caps orig filepath w out
          htr huc hcw hfw, ReadStore_cons_self]

/-! Neither phase of a job ever invokes the source loader: the
`loadCalls` counter is preserved by everything except `loadImage`. -/

theorem regenerate_loadCalls (env : GenEnv) (caps : Caps) (orig : List Nat × Int)
    (filepath : String) (isLocal : Bool) (w : World) :
    (regenerate env caps orig filepath isLocal w).2.loadCalls = w.loadCalls := by
  cases htr : caps.transform orig.1 <;>
    cases huc : env.useCache <;>
    cases hcw : caps.writeFails (CachedPath env filepath isLocal) <;>
    cases hfw : caps.writeFails (FinalPath env filepath) <;>
    cases isLocal <;>
    simp [regenerate, htr, huc, hcw, hfw]

theorem cacheLookup_loadCalls (env : GenEnv) (caps : Caps) (filepath : String)
    (isLocal : Bool) (w : World) (w' : World)
    (h : cacheLookup env caps filepath isLocal w = .ok (some w')) :
    w'.loadCalls = w.loadCalls := by
  cases isLocal with
  | true =>
    cases hrs : ReadStore w.store (CachedPath env filepath true) with
    | none => simp [cacheLookup, hrs] at h
    | some d =>
      cases hfw : caps.writeFails (FinalPath env filepath) with
      | true => simp [cacheLookup, hrs, hfw] at h
      | false =>
        simp [cacheLookup, hrs, hfw] at h
        rw [← h]
  | false =>
    cases hrs : ReadStore w.store (CachedPath env filepath false) with
    | none => simp [cacheLookup, hrs] at h
    | some d =>
      cases d with
      | raw bs => simp [cacheLookup, hrs] at h
      | jsonOther => simp [cacheLookup, hrs] at h
      | jsonNoData expires =>
        by_cases hfresh : expires > caps.now <;> simp [cacheLookup, hrs, hfresh] at h
      | jsonEntry data expires =>
        by_cases hfresh : expires > caps.now
        · cases hfw : caps.writeFails (FinalPath env filepath) with
          | true => simp [cacheLookup, hrs, hfresh, hfw] at h
          | false =>
            simp [cacheLookup, hrs, hfresh, hfw] at h
            rw [← h]
        · simp [cacheLookup, hrs, hfresh] at h

theorem generateImageInternal_loadCalls (env : GenEnv) (caps : Caps)
    (orig : List Nat × Int) (filepath : String) (isLocal : Bool) (w : World) :
    (generateImageInternal env caps orig filepath isLocal w).2.loadCalls =
      w.loadCalls := by
  unfold generateImageInternal
  cases hcl : cacheLookup env caps filepath isLocal w with
  | error e => rfl
  | ok o =>
    cases o with
    | none => exact regenerate_loadCalls env caps orig filepath isLocal w
    | some w' =>
      simpa using cacheLookup_loadCalls env caps filepath isLocal w w' hcl

theorem loadImage_loadCalls (env : GenEnv) (caps : Caps) (path : String)
    (w : World) : (loadImage env caps path w).2.loadCalls = w.loadCalls + 1 := by
  simp only [loadImage]
  split <;> split <;> rfl

theorem runJobs_loadCalls (env : GenEnv) (caps : Caps) (orig : List Nat × Int)
    (ts : List TransformEntry) (w : World) :
    (runJobs env caps orig ts w).2.loadCalls = w.loadCalls := by
  induction ts generalizing w with
  | nil => rfl
  | cons t rest ih =>
    simp only [runJobs]
    rw [ih, generateImageInternal_loadCalls]

/-! Claim theorems. -/

/-- C5: per call to `generateImagesForPath`, the source loader (`loadImage`)
is invoked exactly once — before any job is queued — and its result is shared
by all K jobs, for every K: the jobs themselves never invoke the loader, so
the load counter rises by exactly one regardless of the transform list. -/
theorem source_loader_invoked_once (env : GenEnv) (caps : Caps)
    (originalFilePath : String) (transforms : List TransformEntry) (w : World) :
    (generateImagesForPath env caps originalFilePath transforms w).2.loadCalls =
      w.loadCalls + 1 := by
  unfold generateImagesForPath
  have hl := loadImage_loadCalls env caps originalFilePath w
  cases hli : loadImage env caps originalFilePath w with
  | mk o w' =>
    rw [hli] at hl
    cases o with
    | none => simpa using hl
    | some orig => simpa [runJobs_loadCalls] using hl

/-- C6: `prepareAssetsGeneration` is total (a mkdir failure is caught, never
rethrown): when creating the cache directory fails it logs one warning and
returns an environment with `useCache = false`; when it succeeds the
environment has `useCache = true` and nothing is logged. -/
theorem prepare_mkdir_failure_disables_cache (config : AstroConfig)
    (getOutDirWithinCwd : String → String) (w : World) :
    ((prepareAssetsGeneration config true getOutDirWithinCwd w).1.useCache = false ∧
     (prepareAssetsGeneration config true getOutDirWithinCwd w).2.warnings =
       w.warnings + 1) ∧
    ((prepareAssetsGeneration config false getOutDirWithinCwd w).1.useCache = true ∧
     (prepareAssetsGeneration config false getOutDirWithinCwd w).2.warnings =
       w.warnings) := by
  simp [prepareAssetsGeneration]

/-- C1: for a job that reaches the write phase (the transform returned
bytes), the final artifact is written to the output identity on every exit
path of the cache-write region — in particular when the best-effort cache
write throws, in which case the failure is logged as one warning and
swallowed, and the job still returns a Generated result. -/
theorem cache_write_failure_nonfatal (env : GenEnv) (caps : Caps)
    (orig : List Nat × Int) (filepath : String) (isLocal : Bool) (w : World)
    (out : List Nat)
    (hmiss : ReadStore w.store (CachedPath env filepath isLocal) = none)
    (htr : caps.transform orig.1 = some out)
    (hfw : caps.writeFails (FinalPath env filepath) = false) :
    (generateImageInternal env caps orig filepath isLocal w).1 =
      .ok (.uncached (orig.1.length / 1024) (out.length / 1024)) ∧
    ReadStore (generateImageInternal env caps orig filepath isLocal w).2.store
      (FinalPath env filepath) = some (.raw out) ∧
    (env.useCache = true → caps.writeFails (CachedPath env filepath isLocal) = true →
      (generateImageInternal env caps orig filepath isLocal w).2.warnings =
        w.warnings + 1) := by
  have hgen : generateImageInternal env caps orig filepath isLocal w =
      regenerate env caps orig filepath isLocal w := by
    unfold generateImageInternal
    rw [cacheLookup_absent env caps filepath isLocal w hmiss]
  rw [hgen]
  obtain ⟨h1, h2⟩ :=
    regenerate_always_writes_final env caps orig filepath isLocal w out htr hfw
  refine ⟨h1, h2, fun huc hcw => ?_⟩
  rw [regenerate_cache_write_throws env caps orig filepath isLocal w out htr huc hcw hfw]

/-- Witness for C1: an empty cache, a transform producing `[1, 2, 9]`, and a
capability set whose write to the derived cache key `cache/img.png` throws. -/
theorem cache_write_failure_nonfatal_witness :
    (generateImageInternal envEx capsExCacheWriteFails ([1, 2], 0) "/img.png" true
      emptyWorld).1 = .ok (.uncached 0 0) ∧
    ReadStore (generateImageInternal envEx capsExCacheWriteFails ([1, 2], 0) "/img.png"
      true emptyWorld).2.store (FinalPath envEx "/img.png") = some (.raw [1, 2, 9]) ∧
    (generateImageInternal envEx capsExCacheWriteFails ([1, 2], 0) "/img.png" true
      emptyWorld).2.warnings = emptyWorld.warnings + 1 := by
  obtain ⟨h1, h2, h3⟩ := cache_write_failure_nonfatal envEx capsExCacheWriteFails
    ([1, 2], 0) "/img.png" true emptyWorld [1, 2, 9] (by decide) (by decide) (by decide)
  exact ⟨h1, h2, h3 (by decide) (by decide)⟩

/-- C4: for a local-backed job the lookup is decided by presence alone.  If
the cache file exists its contents are copied verbatim to the output
location and the job reports Reused with the transform counter untouched;
if it is absent the job proceeds to the regeneration phase. -/
theorem local_lookup_presence (env : GenEnv) (caps : Caps) (orig : List Nat × Int)
    (filepath : String) (w : World) :
    (∀ d : FileData,
      ReadStore w.store (CachedPath env filepath true) = some d →
      caps.writeFails (FinalPath env filepath) = false →
      generateImageInternal env caps orig filepath true w =
        (.ok .cached, { w with store := (FinalPath env filepath, d) :: w.store })) ∧
    (ReadStore w.store (CachedPath env filepath true) = none →
      generateImageInternal env caps orig filepath true w =
        regenerate env caps orig filepath true w) := by
  constructor
  · intro d hd hw
    unfold generateImageInternal
    rw [cacheLookup_local_present env caps filepath w d hd hw]
  · intro h
    unfold generateImageInternal
    rw [cacheLookup_absent env caps filepath true w h]

/-- Witness for C4: a present entry `[7, 8]` is copied verbatim and reported
Reused; an absent entry falls through to regeneration. -/
theorem local_lookup_presence_witness :
    generateImageInternal envEx capsEx ([1], 0) "/img.png" true
      { emptyWorld with store := [("cache/img.png", .raw [7, 8])] } =
      (.ok .cached,
       { emptyWorld with store := [("out/img.png", .raw [7, 8]),
           ("cache/img.png", .raw [7, 8])] }) ∧
    generateImageInternal envEx capsEx ([1], 0) "/img.png" true emptyWorld =
      regenerate envEx capsEx ([1], 0) "/img.png" true emptyWorld := by
  constructor
  · exact (local_lookup_presence envEx capsEx ([1], 0) "/img.png"
      { emptyWorld with store := [("cache/img.png", .raw [7, 8])] }).1
      (.raw [7, 8]) (by decide) (by decide)
  · exact (local_lookup_presence envEx capsEx ([1], 0) "/img.png" emptyWorld).2
      (by decide)

/-- C7: on a cache miss, if the transform capability throws the job fails
fatally with the transform error and the filesystem is left exactly as it
was: neither a cache entry nor a final artifact is written. -/
theorem transform_failure_writes_nothing (env : GenEnv) (caps : Caps)
    (orig : List Nat × Int) (filepath : String) (isLocal : Bool) (w : World)
    (hmiss : ReadStore w.store (CachedPath env filepath isLocal) = none)
    (htr : caps.transform orig.1 = none) :
    (generateImageInternal env caps orig filepath isLocal w).1 =
      .error .transformError ∧
    (generateImageInternal env caps orig filepath isLocal w).2.store = w.store := by
  have hgen : generateImageInternal env caps orig filepath isLocal w =
      regenerate env caps orig filepath isLocal w := by
    unfold generateImageInternal
    rw [cacheLookup_absent env caps filepath isLocal w hmiss]
  rw [hgen, regenerate_transform_throws env caps orig filepath isLocal w htr]
  exact ⟨rfl, rfl⟩

/-- Witness for C7: a throwing transform leaves the empty world's store
empty. -/
theorem transform_failure_writes_nothing_witness :
    (generateImageInternal envEx capsExNoTransform ([1], 0) "/img.png" true
      emptyWorld).1 = .error .transformError ∧
    (generateImageInternal envEx capsExNoTransform ([1], 0) "/img.png" true
      emptyWorld).2.store = emptyWorld.store := by
  exact transform_failure_writes_nothing envEx capsExNoTransform ([1], 0) "/img.png"
    true emptyWorld (by decide) (by decide)

/-- C3: remote-backed lookup is expiry-driven.  If the entry parses and its
`expires` is strictly after `Date.now()`, the cached payload is base64-decoded
and written to the output location, the job reports Reused, and the transform
counter is untouched.  If the entry parses but is not in the future, the job
regenerates: it reports Generated and writes a fresh cache entry carrying the
expiry stamp of the newly loaded source (`orig.2`). -/
theorem remote_expiry_policy (env : GenEnv) (caps : Caps) (orig : List Nat × Int)
    (filepath : String) (w : World) (data : String) (expires : Int)
    (hd : ReadStore w.store (CachedPath env filepath false) =
      some (.jsonEntry data expires))
    (hfw : caps.writeFails (FinalPath env filepath) = false) :
    (expires > caps.now →
      generateImageInternal env caps orig filepath false w =
        (.ok .cached,
         { w with store :=
             (FinalPath env filepath, .raw (b64DecodeChunks data.data)) :: w.store })) ∧
    (¬ expires > caps.now →
      ∀ out : List Nat, caps.transform orig.1 = some out →
      env.useCache = true →
      caps.writeFails (CachedPath env filepath false) = false →
      generateImageInternal env caps orig filepath false w =
        (.ok (.uncached (orig.1.length / 1024) (out.length / 1024)),
         { w with transformCalls := w.transformCalls + 1,
                  store := (FinalPath env filepath, .raw out) ::
                    (CachedPath env filepath false,
                     .jsonEntry (String.mk (b64EncodeChunks out)) orig.2) :: w.store })) := by
  constructor
  · intro hfresh
    unfold generateImageInternal
    rw [cacheLookup_remote_fresh env caps filepath w data expires hd hfresh hfw]
  · intro hexp out htr huc hcw
    unfold generateImageInternal
    rw [cacheLookup_remote_expired env caps filepath w data expires hd hexp]
    exact regenerate_remote_full_write env caps orig filepath w out htr huc hcw hfw

/-- Witness for C3: the entry `AQIJ` (bytes `[1, 2, 9]`) with expiry 500 is
reused at time 100; the same entry with expiry 50 is regenerated. -/
theorem remote_expiry_policy_witness :
    generateImageInternal envEx capsEx ([1], 7) "/img.png" false
      { emptyWorld with store := [("cache/img.png.json", .jsonEntry "AQIJ" 500)] } =
      (.ok .cached,
       { emptyWorld with store :=
           [("out/img.png", .raw [1, 2, 9]),
            ("cache/img.png.json", .jsonEntry "AQIJ" 500)] }) ∧
    generateImageInternal envEx capsEx ([1], 7) "/img.png" false
      { emptyWorld with store := [("cache/img.png.json", .jsonEntry "AQIJ" 50)] } =
      (.ok (.uncached 0 0),
       { emptyWorld with
         transformCalls := 1,
         store := [("out/img.png", .raw [1, 9]),
           ("cache/img.png.json", .jsonEntry (String.mk (b64EncodeChunks [1, 9])) 7),
           ("cache/img.png.json", .jsonEntry "AQIJ" 50)] }) := by
  constructor
  · exact (remote_expiry_policy envEx capsEx ([1], 7) "/img.png"
      { emptyWorld with store := [("cache/img.png.json", .jsonEntry "AQIJ" 500)] }
      "AQIJ" 500 (by decide) (by decide)).1 (by decide)
  · exact (remote_expiry_policy envEx capsEx ([1], 7) "/img.png"
      { emptyWorld with store := [("cache/img.png.json", .jsonEntry "AQIJ" 50)] }
      "AQIJ" 50 (by decide) (by decide)).2 (by decide) [1, 9] (by decide) (by decide)
      (by decide)

/-- C10: `useCache` gates only the cache write.  With caching disabled the
lookup still runs — a present local entry or a fresh remote entry is still
reported Reused — and on a miss the job regenerates, writes the final
artifact, but adds no cache entry (the final world's store gains only the
output identity). -/
theorem useCache_gates_only_cache_write (env : GenEnv) (caps : Caps)
    (orig : List Nat × Int) (filepath : String) (w : World)
    (huc : env.useCache = false) :
    (∀ d : FileData, ReadStore w.store (CachedPath env filepath true) = some d →
      caps.writeFails (FinalPath env filepath) = false →
      (generateImageInternal env caps orig filepath true w).1 = .ok .cached) ∧
    (∀ (data : String) (expires : Int),
      ReadStore w.store (CachedPath env filepath false) =
        some (.jsonEntry data expires) →
      expires > caps.now →
      caps.writeFails (FinalPath env filepath) = false →
      (generateImageInternal env caps orig filepath false w).1 = .ok .cached) ∧
    (∀ (isLocal : Bool) (out : List Nat),
      ReadStore w.store (CachedPath env filepath isLocal) = none →
      caps.transform orig.1 = some out →
      caps.writeFails (FinalPath env filepath) = false →
      generateImageInternal env caps orig filepath isLocal w =
        (.ok (.uncached (orig.1.length / 1024) (out.length / 1024)),
         { w with transformCalls := w.transformCalls + 1,
                  store := (FinalPath env filepath, .raw out) :: w.store })) := by
  refine ⟨fun d hd hw => ?_, fun data expires hd hfresh hw => ?_,
    fun isLocal out hmiss htr hfw => ?_⟩
  · unfold generateImageInternal
    rw [cacheLookup_local_present env caps filepath w d hd hw]
  · unfold generateImageInternal
    rw [cacheLookup_remote_fresh env caps filepath w data expires hd hfresh hw]
  · unfold generateImageInternal
    rw [cacheLookup_absent env caps filepath isLocal w hmiss]
    exact regenerate_no_cache env caps orig filepath isLocal w out htr huc hfw

/-- Witness for C10: with `useCache = false`, a present local entry is still
Reused, a fresh remote entry is still Reused, and a miss regenerates without
writing a cache entry. -/
theorem useCache_gates_only_cache_write_witness :
    (generateImageInternal envExNoCache capsEx ([1], 0) "/img.png" true
      { emptyWorld with store := [("cache/img.png", .raw [7])] }).1 = .ok .cached ∧
    (generateImageInternal envExNoCache capsEx ([1], 0) "/img.png" false
      { emptyWorld with store := [("cache/img.png.json", .jsonEntry "AQIJ" 500)] }).1 =
      .ok .cached ∧
    generateImageInternal envExNoCache capsEx ([1], 0) "/img.png" true emptyWorld =
      (.ok (.uncached 0 0),
       { emptyWorld with
         transformCalls := 1,
         store := [("out/img.png", .raw [1, 9])] }) := by
  refine ⟨?_, ?_, ?_⟩
  · exact (useCache_gates_only_cache_write envExNoCache capsEx ([1], 0) "/img.png"
      { emptyWorld with store := [("cache/img.png", .raw [7])] } (by decide)).1
      (.raw [7]) (by decide) (by decide)
  · exact (useCache_gates_only_cache_write envExNoCache capsEx ([1], 0) "/img.png"
      { emptyWorld with store := [("cache/img.png.json", .jsonEntry "AQIJ" 500)] }
      (by decide)).2.1 "AQIJ" 500 (by decide) (by decide) (by decide)
  · exact (useCache_gates_only_cache_write envExNoCache capsEx ([1], 0) "/img.png"
      emptyWorld (by decide)).2.2 true [1, 9] (by decide) (by decide) (by decide)

/-- C8: remote-backed entries round-trip.  Writing transformed bytes through
the remote cache path stores the record
`jsonEntry (base64 bytes) expires`; a later remote lookup at the same output
identity before expiry decodes it back to the identical bytes at the output
location and reports Reused, the expiry stamp preserved. -/
theorem remote_cache_roundtrip (env : GenEnv) (caps caps' : Caps)
    (orig orig' : List Nat × Int) (filepath : String) (w : World) (out : List Nat)
    (hv : ValidBytes out)
    (hmiss : ReadStore w.store (CachedPath env filepath false) = none)
    (htr : caps.transform orig.1 = some out)
    (huc : env.useCache = true)
    (hcw : caps.writeFails (CachedPath env filepath false) = false)
    (hfw : caps.writeFails (FinalPath env filepath) = false)
    (hne : FinalPath env filepath ≠ CachedPath env filepath false)
    (hfresh : orig.2 > caps'.now)
    (hfw' : caps'.writeFails (FinalPath env filepath) = false) :
    ReadStore (generateImageInternal env caps orig filepath false w).2.store
      (CachedPath env filepath false) =
      some (.jsonEntry (String.mk (b64EncodeChunks out)) orig.2) ∧
    (generateImageInternal env caps' orig' filepath false
      (generateImageInternal env caps orig filepath false w).2).1 = .ok .cached ∧
    ReadStore (generateImageInternal env caps' orig' filepath false
      (generateImageInternal env caps orig filepath false w).2).2.store
      (FinalPath env filepath) = some (.raw out) := by
  have hgen1 : generateImageInternal env caps orig filepath false w =
      (.ok (.uncached (orig.1.length / 1024) (out.length / 1024)),
       { w with transformCalls := w.transformCalls + 1,
                store := (FinalPath env filepath, .raw out) ::
                  (CachedPath env filepath false,
                   .jsonEntry (String.mk (b64EncodeChunks out)) orig.2) :: w.store }) := by
    unfold generateImageInternal
    rw [cacheLookup_absent env caps filepath false w hmiss]
    exact regenerate_remote_full_write env caps orig filepath w out htr huc hcw hfw
  have hentry : ReadStore (generateImageInternal env caps orig filepath false w).2.store
      (CachedPath env filepath false) =
      some (.jsonEntry (String.mk (b64EncodeChunks out)) orig.2) := by
    rw [hgen1]
    exact (ReadStore_cons_ne _ _ _ _ hne).trans (ReadStore_cons_self _ _ _)
  have hdec : b64DecodeChunks (String.mk (b64EncodeChunks out)).data = out :=
    b64_roundtrip out hv
  have hgen2 : generateImageInternal env caps' orig' filepath false
      (generateImageInternal env caps orig filepath false w).2 =
      (.ok .cached,
       { (generateImageInternal env caps orig filepath false w).2 with
         store := (FinalPath env filepath,
           .raw (b64DecodeChunks (String.mk (b64EncodeChunks out)).data)) ::
           (generateImageInternal env caps orig filepath false w).2.store }) := by
    conv_lhs => rw [generateImageInternal]
    rw [cacheLookup_remote_fresh env caps' filepath
      (generateImageInternal env caps orig filepath false w).2
      (String.mk (b64EncodeChunks out)) orig.2 hentry hfresh hfw']
  refine ⟨hentry, ?_, ?_⟩
  · rw [hgen2]
  · rw [hgen2]
    exact (ReadStore_cons_self _ _ _).trans (by rw [hdec])

/-- Witness for C8: bytes `[1, 9]` written through the remote cache at expiry
7 are read back intact before expiry (clock rewound to 0). -/
theorem remote_cache_roundtrip_witness :
    ReadStore (generateImageInternal envEx capsEx ([1], 7) "/img.png" false
      emptyWorld).2.store (CachedPath envEx "/img.png" false) =
      some (.jsonEntry (String.mk (b64EncodeChunks [1, 9])) 7) ∧
    (generateImageInternal envEx { capsEx with now := 0 } ([3], 0) "/img.png" false
      (generateImageInternal envEx capsEx ([1], 7) "/img.png" false emptyWorld).2).1 =
      .ok .cached ∧
    ReadStore (generateImageInternal envEx { capsEx with now := 0 } ([3], 0) "/img.png"
      false (generateImageInternal envEx capsEx ([1], 7) "/img.png" false
        emptyWorld).2).2.store (FinalPath envEx "/img.png") = some (.raw [1, 9]) := by
  exact remote_cache_roundtrip envEx capsEx { capsEx with now := 0 } ([1], 7) ([3], 0)
    "/img.png" emptyWorld [1, 9] (by decide) (by decide) (by decide) (by decide)
    (by decide) (by decide) (by decide) (by decide) (by decide)

/-- C9 counterexample: a regenerating job whose loaded source is 2 bytes and
whose transformed output is 3 bytes reports `Generated` with weights
`(0, 0)`, not the byte sizes `(2, 3)`: the code divides by 1024 and
truncates (kilobytes). -/
theorem generated_sizes_counterexample :
    (generateImageInternal envEx capsEx ([1, 2], 0) "/j.png" true emptyWorld).1 =
      .ok (.uncached 0 0) ∧
    (generateImageInternal envEx capsEx ([1, 2], 0) "/j.png" true emptyWorld).1 ≠
      .ok (.uncached ([1, 2] : List Nat).length ([1, 2, 9] : List Nat).length) := by
  decide

/-- C9 (amended): a regenerated job reports Generated carrying
`weight.before = byteLength(source) / 1024` and
`weight.after = byteLength(output) / 1024` (truncated kilobytes, not bytes);
a Reused result (`GenerationData.cached`) carries no size payload by
construction. -/
theorem generated_sizes_kilobytes (env : GenEnv) (caps : Caps)
    (orig : List Nat × Int) (filepath : String) (isLocal : Bool) (w : World)
    (out : List Nat)
    (hmiss : ReadStore w.store (CachedPath env filepath isLocal) = none)
    (htr : caps.transform orig.1 = some out)
    (hfw : caps.writeFails (FinalPath env filepath) = false) :
    (generateImageInternal env caps orig filepath isLocal w).1 =
      .ok (.uncached (orig.1.length / 1024) (out.length / 1024)) := by
  have hgen : generateImageInternal env caps orig filepath isLocal w =
      regenerate env caps orig filepath isLocal w := by
    unfold generateImageInternal
    rw [cacheLookup_absent env caps filepath isLocal w hmiss]
  rw [hgen]
  exact (regenerate_always_writes_final env caps orig filepath isLocal w out htr hfw).1

set_option maxRecDepth 8192 in
/-- Witness for the amended C9: a 2100-byte source and a 2101-byte output are
reported as 2 kB before and 2 kB after. -/
theorem generated_sizes_kilobytes_witness :
    (generateImageInternal envEx capsEx (List.replicate 2100 5, 0) "/j.png" true
      emptyWorld).1 = .ok (.uncached 2 2) := by
  have h := generated_sizes_kilobytes envEx capsEx (List.replicate 2100 5, 0) "/j.png"
    true emptyWorld (List.replicate 2100 5 ++ [9]) (by decide) rfl (by decide)
  rw [h]
  simp

end AssetGen
